import Mathlib

/-!
Verification development for `snes_connector.py`, a parametric CAD generator
producing left/right-handed SNES controller connector models.

The Python program is shallowly embedded over exact rationals:

* the parameter table `params()` becomes the structure `Cfg` (measured base
  dimensions) together with derived-value functions mirroring the source's
  arithmetic, and `defaultCfg` holding the literals of the source;
* 2D sketches and 3D solids become subsets of `V2` / `V3` (predicates over
  rational points); sketch/extrude/boolean operations of the build123d kernel
  become set operations;
* rigid transforms (`Pos`, `Rot`) become explicit affine maps `V3 → V3`
  (all rotations used are multiples of 90 degrees, hence rational);
* the one fallible operation (Python list indexing of the pin-position list)
  returns `Except String ℚ`.

The cosmetic `cfg.bling.fillet_everything` branch is disabled by default in
the source (`fillet_everything = False`) and is not modelled; all solids here
follow the default build path.
-/

/-- A 2D point with rational coordinates (a point of a build123d sketch). -/
structure V2 where
  x : ℚ
  y : ℚ
deriving DecidableEq

/-- A 3D point with rational coordinates. -/
structure V3 where
  x : ℚ
  y : ℚ
  z : ℚ
deriving DecidableEq

/-! ## Parameter table (`params()` in the source)

`Cfg` holds the measured base dimensions that appear as literals inside
`params()`.  Values that the source derives by arithmetic from these are
defined below as functions, using the source's formulas verbatim. -/

/-- `cfg.pin`: measured pin dimensions. -/
structure PinCfg where
  diameter : ℚ
  insert_recess : ℚ
  pcb_stickout : ℚ
  rear_stickout : ℚ
deriving DecidableEq

/-- `cfg.body`: outer shell dimensions. -/
structure BodyCfg where
  width : ℚ
  height : ℚ
  depth : ℚ
  fillet : ℚ
deriving DecidableEq

/-- `cfg.body.cavity`: the carved cavity; its width/height/depth are derived
from the body via `shell_thickness`, so only the local constant and the
fillet are base data. -/
structure CavityCfg where
  shell_thickness : ℚ
  fillet : ℚ
deriving DecidableEq

/-- `cfg.body.standoffs`: standoff rails. Width and depth are derived. -/
structure StandoffCfg where
  height : ℚ
  distance_from_edge : ℚ
deriving DecidableEq

/-- `cfg.body.flange`: front flange; width/height/fillet are derived. -/
structure FlangeCfg where
  stickout : ℚ
  depth : ℚ
deriving DecidableEq

/-- `cfg.body.inserts`: the two insulating inserts. -/
structure InsertsCfg where
  big_width : ℚ
  small_width : ℚ
  gap : ℚ
  height : ℚ
  hole_diameter : ℚ
  stickout : ℚ
  fillet : ℚ
deriving DecidableEq

/-- `cfg.body.grip`: rear pin grip; all other grip values are derived. -/
structure GripCfg where
  depth : ℚ
deriving DecidableEq

/-- The whole parameter table. -/
structure Cfg where
  pin : PinCfg
  body : BodyCfg
  cavity : CavityCfg
  standoffs : StandoffCfg
  flange : FlangeCfg
  inserts : InsertsCfg
  grip : GripCfg
deriving DecidableEq

/-- `p.radius = p.diameter/2`. -/
def PinCfg.radius (p : PinCfg) : ℚ := p.diameter / 2

/-- `p.elbow_radius = p.diameter`. -/
def PinCfg.elbow_radius (p : PinCfg) : ℚ := p.diameter

/-- `gaps = [4, 4, 4, 6.5, 4, 4]`. -/
def gaps : List ℚ := [4, 4, 4, 6.5, 4, 4]

/-- `p0 = -sum(gaps)/2`. -/
def pinP0 : ℚ := -gaps.sum / 2

/-- `p.pos[i] = p0 + sum(gaps[:i])` (the 1D vectors kept as rationals). -/
def pinPos (i : ℕ) : ℚ := pinP0 + (gaps.take i).sum

/-- `p.pos` as the 7-element list built by the comprehension
`[Vector(p0+sum(gaps[:i])) for i in range(7)]`. -/
def pinPosList : List ℚ := (List.range 7).map pinPos

/-- Python list indexing `cfg.pin.pos[i]`: in range it yields the element,
out of range it raises `IndexError: list index out of range`. -/
def resolvePin (i : ℕ) : Except String ℚ :=
  if h : i < pinPosList.length then Except.ok (pinPosList.get ⟨i, h⟩)
  else Except.error "list index out of range"

/-- `c.width = b.width - 2*shell_thickness`. -/
def Cfg.cavityWidth (c : Cfg) : ℚ := c.body.width - 2 * c.cavity.shell_thickness

/-- `c.height = b.height - 2*shell_thickness`. -/
def Cfg.cavityHeight (c : Cfg) : ℚ := c.body.height - 2 * c.cavity.shell_thickness

/-- `c.depth = b.depth - shell_thickness`. -/
def Cfg.cavityDepth (c : Cfg) : ℚ := c.body.depth - c.cavity.shell_thickness

/-- `s.width = p.diameter`. -/
def Cfg.standoffWidth (c : Cfg) : ℚ := c.pin.diameter

/-- `s.depth = b.depth`. -/
def Cfg.standoffDepth (c : Cfg) : ℚ := c.body.depth

/-- `s.spacing = b.width - 2*distance_from_edge - s.width`. -/
def Cfg.standoffSpacing (c : Cfg) : ℚ :=
  c.body.width - 2 * c.standoffs.distance_from_edge - c.standoffWidth

/-- `f.width = b.width + 2*stickout`. -/
def Cfg.flangeWidth (c : Cfg) : ℚ := c.body.width + 2 * c.flange.stickout

/-- `f.height = b.height + 2*stickout`. -/
def Cfg.flangeHeight (c : Cfg) : ℚ := c.body.height + 2 * c.flange.stickout

/-- `f.fillet = b.fillet`. -/
def Cfg.flangeFillet (c : Cfg) : ℚ := c.body.fillet

/-- `i.hole_radius = i.hole_diameter/2`. -/
def Cfg.holeRadius (c : Cfg) : ℚ := c.inserts.hole_diameter / 2

/-- `i.width = i.big.width + i.gap + i.small.width`. -/
def Cfg.insertsWidth (c : Cfg) : ℚ :=
  c.inserts.big_width + c.inserts.gap + c.inserts.small_width

/-- `margin = diam` (one pin width of extra grip material). -/
def Cfg.gripMargin (c : Cfg) : ℚ := c.pin.diameter

/-- `g.width = (pos[6] - pos[0]).length + diam + 2*margin`. -/
def Cfg.gripWidth (c : Cfg) : ℚ :=
  |pinPos 6 - pinPos 0| + c.pin.diameter + 2 * c.gripMargin

/-- `g.height = diam + 2*margin`. -/
def Cfg.gripHeight (c : Cfg) : ℚ := c.pin.diameter + 2 * c.gripMargin

/-- `g.notch.width = diam`. -/
def Cfg.notchWidth (c : Cfg) : ℚ := c.pin.diameter

/-- `g.notch.height = g.height`. -/
def Cfg.notchHeight (c : Cfg) : ℚ := c.gripHeight

/-- `g.notch.depth = diam`. -/
def Cfg.notchDepth (c : Cfg) : ℚ := c.pin.diameter

/-- The literal measurements of `params()` in the source. -/
def defaultCfg : Cfg where
  pin := { diameter := 1.2, insert_recess := 1.5, pcb_stickout := 3,
           rear_stickout := 0.2 }
  body := { width := 38.7, height := 12.0, depth := 13.4, fillet := 1.75 }
  cavity := { shell_thickness := 1.6, fillet := 1.0 }
  standoffs := { height := 0.5, distance_from_edge := 7.5 }
  flange := { stickout := 1.95, depth := 2 }
  inserts := { big_width := 16.9, small_width := 12.9, gap := 1.6,
               height := 5.2, hole_diameter := 3.6, stickout := 1.3,
               fillet := 0.5 }
  grip := { depth := 2.9 }

/-! ## Points, rigid maps -/

/-- Reflect a sketch point across the sketch x-axis. -/
def flipY2 (q : V2) : V2 := ⟨q.x, -q.y⟩

/-- Forget the depth coordinate (project a solid point onto its sketch). -/
def proj2 (p : V3) : V2 := ⟨p.x, p.y⟩

/-- `Pos(v)`: translation by `v`. -/
def translV (v p : V3) : V3 := ⟨p.x + v.x, p.y + v.y, p.z + v.z⟩

/-- `Rot(0, 0, 180)`: 180-degree rotation about the Z axis. -/
def rotZ180 (p : V3) : V3 := ⟨-p.x, -p.y, p.z⟩

/-- `Rot(90, 0, 0)`: 90-degree rotation about the X axis. -/
def rotX90 (p : V3) : V3 := ⟨p.x, -p.z, p.y⟩

/-- Reflection across the plane `x = 0` (a true mirror, not used by the
source, which works with rotations instead). -/
def reflX (p : V3) : V3 := ⟨-p.x, p.y, p.z⟩

/-- Reflection across the plane `y = 0`. -/
def reflY (p : V3) : V3 := ⟨p.x, -p.y, p.z⟩

/-- Squared Euclidean distance. -/
def sqDist (p q : V3) : ℚ :=
  (p.x - q.x) ^ 2 + (p.y - q.y) ^ 2 + (p.z - q.z) ^ 2

/-- Orientation (determinant of the linear part) of an affine map: the
triple product of the images of the three axis directions. -/
def orientation3 (f : V3 → V3) : ℚ :=
  let o := f ⟨0, 0, 0⟩
  let a := f ⟨1, 0, 0⟩
  let b := f ⟨0, 1, 0⟩
  let c := f ⟨0, 0, 1⟩
  (a.x - o.x) * ((b.y - o.y) * (c.z - o.z) - (b.z - o.z) * (c.y - o.y))
    - (a.y - o.y) * ((b.x - o.x) * (c.z - o.z) - (b.z - o.z) * (c.x - o.x))
    + (a.z - o.z) * ((b.x - o.x) * (c.y - o.y) - (b.y - o.y) * (c.x - o.x))

/-! ## `SemiStadium.__init__`

The outline: a polyline along `(arc_x, -h/2) → (-w/2, -h/2) → (-w/2, h/2)
→ (arc_x, h/2)` closed by a three-point arc through `(w/2, 0)`; `make_face`
fills it.  With `fillet_radius > 0` the polyline is a `FilletPolyline`, which
rounds its two interior vertices (the two flat-end corners; the arc meets the
straight sides tangentially, so the arc-end vertices are smooth already).
The filled face is the axis-aligned rectangle up to `arc_x` plus the closing
half-disk, with (in the fillet branch) the two corner regions outside the
rolling-fillet circles removed. -/

/-- `arc_x = w/2 - h/2` (the arc has `radius = h/2`). -/
def ssArcX (w h : ℚ) : ℚ := w / 2 - h / 2

/-- The region removed by rounding a 90-degree corner at `(cx, cy)` with
fillet radius `f`; `sx, sy ∈ {1, -1}` point from the corner into the
material.  It is the `f × f` corner square minus the quarter-disk around
the fillet center. -/
def cornerCut (cx cy sx sy f : ℚ) : Set V2 :=
  {q | 0 ≤ sx * (q.x - cx) ∧ sx * (q.x - cx) ≤ f ∧
       0 ≤ sy * (q.y - cy) ∧ sy * (q.y - cy) ≤ f ∧
       f ^ 2 < (sx * (q.x - cx) - f) ^ 2 + (sy * (q.y - cy) - f) ^ 2}

/-- The rectangular part of the semi-stadium face. -/
def ssRect (w h : ℚ) : Set V2 :=
  {q | -(w / 2) ≤ q.x ∧ q.x ≤ ssArcX w h ∧ |q.y| ≤ h / 2}

/-- The half-disk closed by the `ThreePointArc` (radius `h/2`, center
`(arc_x, 0)`, passing through `(w/2, 0)`). -/
def ssDisk (w h : ℚ) : Set V2 :=
  {q | ssArcX w h ≤ q.x ∧ (q.x - ssArcX w h) ^ 2 + q.y ^ 2 ≤ (h / 2) ^ 2}

/-- The face made from the plain `Polyline` branch. -/
def plainSS (w h : ℚ) : Set V2 := ssRect w h ∪ ssDisk w h

/-- The face made from the `FilletPolyline` branch: the two flat-end corners
`(-w/2, ±h/2)` are rounded with radius `f`. -/
def filletSS (w h f : ℚ) : Set V2 :=
  (ssRect w h \
      (cornerCut (-(w / 2)) (h / 2) 1 (-1) f ∪
        cornerCut (-(w / 2)) (-(h / 2)) 1 1 f)) ∪
    ssDisk w h

/-- `SemiStadium(width, height, fillet_radius)`: the branch on
`fillet_radius > 0` is the source's `if`. -/
def semiStadium (w h f : ℚ) : Set V2 :=
  if 0 < f then filletSS w h f else plainSS w h

/-- Whether the `FilletPolyline` branch (the only fillet operation in
`SemiStadium.__init__`) runs, per the source's `if fillet_radius > 0`. -/
def filletInvoked (f : ℚ) : Bool := decide (0 < f)

/-! ## `Body.__init__` -/

/-- Extrusion of a sketch along Z between two depths. -/
def extrudeZ (S : Set V2) (z0 z1 : ℚ) : Set V3 :=
  {p | proj2 p ∈ S ∧ z0 ≤ p.z ∧ p.z ≤ z1}

/-- An axis-aligned box centered at `(cx, cy)` in XY (given half-extents)
spanning `[z0, z1]` in Z. -/
def boxAt (cx cy hw hh z0 z1 : ℚ) : Set V3 :=
  {p | |p.x - cx| ≤ hw ∧ |p.y - cy| ≤ hh ∧ z0 ≤ p.z ∧ p.z ≤ z1}

/-- Step 1: base shell, `SemiStadium(b.width, b.height, b.fillet)` extruded
from the XY plane by `b.depth`. -/
def baseSolid (c : Cfg) : Set V3 :=
  extrudeZ (semiStadium c.body.width c.body.height c.body.fillet) 0 c.body.depth

/-- Step 2: front flange, sketched on the reversed plane at `z = b.depth`
and extruded backwards by `b.flange.depth` (added before the cavity is
carved). -/
def flangeSolid (c : Cfg) : Set V3 :=
  extrudeZ (semiStadium c.flangeWidth c.flangeHeight c.flangeFillet)
    (c.body.depth - c.flange.depth) c.body.depth

/-- Step 3: the cavity carved from the front face backwards by
`b.cavity.depth` (subtracted). -/
def cavitySolid (c : Cfg) : Set V3 :=
  extrudeZ (semiStadium c.cavityWidth c.cavityHeight c.cavity.fillet)
    (c.body.depth - c.cavityDepth) c.body.depth

/-- Step 4: the four standoff rails from
`GridLocations(x_spacing=s.spacing, y_spacing=b.height + s.height, 2, 2)`,
each a `Box(s.width, s.height, s.depth)` aligned `MIN` in Z. -/
def standoffsSolid (c : Cfg) : Set V3 :=
  (boxAt (c.standoffSpacing / 2) ((c.body.height + c.standoffs.height) / 2)
      (c.standoffWidth / 2) (c.standoffs.height / 2) 0 c.standoffDepth ∪
    boxAt (c.standoffSpacing / 2) (-((c.body.height + c.standoffs.height) / 2))
      (c.standoffWidth / 2) (c.standoffs.height / 2) 0 c.standoffDepth) ∪
  (boxAt (-(c.standoffSpacing / 2)) ((c.body.height + c.standoffs.height) / 2)
      (c.standoffWidth / 2) (c.standoffs.height / 2) 0 c.standoffDepth ∪
    boxAt (-(c.standoffSpacing / 2)) (-((c.body.height + c.standoffs.height) / 2))
      (c.standoffWidth / 2) (c.standoffs.height / 2) 0 c.standoffDepth)

/-- `punchout_center = (pos[3] + pos[4])/2`. -/
def punchCenter : ℚ := (pinPos 3 + pinPos 4) / 2

/-- The rectangle cut between the two pin groups of the insert sketch. -/
def punchRect (c : Cfg) : Set V2 :=
  {q | |q.x - punchCenter| ≤ c.inserts.gap / 2 ∧ |q.y| ≤ c.inserts.height / 2}

/-- `fillet(inserts.edges().filter_by(Axis.Y).vertices(), b.inserts.fillet)`:
the Y-parallel edges are the flat left edge of the outer semi-stadium and
the two vertical edges of the punchout, so their six corners (three at
`y = h/2`, three at `y = -h/2`) each get a rolling-fillet cut. -/
def insertCornerCuts (c : Cfg) : Set V2 :=
  (cornerCut (-(c.insertsWidth / 2)) (c.inserts.height / 2) 1 (-1) c.inserts.fillet ∪
    cornerCut (-(c.insertsWidth / 2)) (-(c.inserts.height / 2)) 1 1 c.inserts.fillet) ∪
  (cornerCut (punchCenter - c.inserts.gap / 2) (c.inserts.height / 2) (-1) (-1) c.inserts.fillet ∪
    cornerCut (punchCenter - c.inserts.gap / 2) (-(c.inserts.height / 2)) (-1) 1 c.inserts.fillet) ∪
  (cornerCut (punchCenter + c.inserts.gap / 2) (c.inserts.height / 2) 1 (-1) c.inserts.fillet ∪
    cornerCut (punchCenter + c.inserts.gap / 2) (-(c.inserts.height / 2)) 1 1 c.inserts.fillet)

/-- The seven pin holes `Circle(b.inserts.hole_radius)` at the pin
positions, cut from the insert sketch. -/
def insertHoles (c : Cfg) : Set V2 :=
  ⋃ i : Fin 7, {q | (q.x - pinPos i) ^ 2 + q.y ^ 2 ≤ c.holeRadius ^ 2}

/-- The finished insert sketch: outer `SemiStadium(i.width, i.height)`
(no fillet argument), minus the punchout, minus the six corner fillet cuts,
minus the seven holes. -/
def insertProfile (c : Cfg) : Set V2 :=
  ((semiStadium c.insertsWidth c.inserts.height 0 \ punchRect c) \
      insertCornerCuts c) \ insertHoles c

/-- Step 5: the inserts, sketched at `z = b.depth + i.stickout` and extruded
backwards with `Until.NEXT`.  The profile lies strictly inside the cavity
outline, so the next face the extrusion meets is the cavity floor at
`z = b.depth - cavity.depth`; the kernel's `Until.NEXT` is modelled as that
extent. -/
def insertsSolid (c : Cfg) : Set V3 :=
  extrudeZ (insertProfile c) (c.body.depth - c.cavityDepth)
    (c.body.depth + c.inserts.stickout)

/-- Step 6a: the rear grip `Box(g.width, g.height, g.depth)` aligned `MAX`
in Z (it spans `[-g.depth, 0]`). -/
def gripSolid (c : Cfg) : Set V3 :=
  boxAt 0 0 (c.gripWidth / 2) (c.gripHeight / 2) (-c.grip.depth) 0

/-- Step 6b: the seven notch cuts, sketched at `z = -g.depth` and extruded
forwards by `g.notch.depth` (subtracted). -/
def notchesSolid (c : Cfg) : Set V3 :=
  ⋃ i : Fin 7,
    boxAt (pinPos i) 0 (c.notchWidth / 2) (c.notchHeight / 2)
      (-c.grip.depth) (-c.grip.depth + c.notchDepth)

/-- The whole `Body.__init__` build, operations in source order: base
extrude, flange add, cavity subtract, standoff adds, insert add, grip add,
notch subtract (the cosmetic `fillet_everything` branch is off by
default). -/
def bodySet (c : Cfg) : Set V3 :=
  (((((baseSolid c ∪ flangeSolid c) \ cavitySolid c) ∪ standoffsSolid c) ∪
        insertsSolid c) ∪ gripSolid c) \ notchesSolid c

/-! ## `Pin.__init__`

The sweep path is drawn in `Plane.YZ`, whose local `(u, v)` maps to global
`(0, u, v)`.  The `FilletPolyline` corner at local `(0, below_y)` (between
the segment coming down from `start_y` and the segment running out to
`end_x`) is replaced by a tangent quarter-circle of radius
`cfg.pin.elbow_radius`.  A circle of radius `cfg.pin.radius` is swept along
the path and both end faces are filleted at that same radius, which caps the
tube with hemispheres: the resulting solid is exactly the set of points
within `cfg.pin.radius` of the path. -/

/-- `start_y = cfg.body.depth + cfg.body.inserts.stickout -
cfg.pin.insert_recess` (a global Z coordinate). -/
def pinStartZ (c : Cfg) : ℚ :=
  c.body.depth + c.inserts.stickout - c.pin.insert_recess

/-- `below_y = -(cfg.body.grip.depth + cfg.pin.rear_stickout)`. -/
def pinBelowZ (c : Cfg) : ℚ := -(c.grip.depth + c.pin.rear_stickout)

/-- `end_x = -(cfg.body.height/2 + cfg.pin.pcb_stickout)` (a global Y
coordinate). -/
def pinEndY (c : Cfg) : ℚ := -(c.body.height / 2 + c.pin.pcb_stickout)

/-- The filleted three-segment sweep path: straight run down the depth
axis, tangent quarter-circle elbow, straight run out towards the board. -/
def pinPath (c : Cfg) : Set V3 :=
  {p | p.x = 0 ∧ p.y = 0 ∧
        pinBelowZ c + c.pin.elbow_radius ≤ p.z ∧ p.z ≤ pinStartZ c} ∪
    {p | p.x = 0 ∧
          (p.y + c.pin.elbow_radius) ^ 2 +
              (p.z - (pinBelowZ c + c.pin.elbow_radius)) ^ 2 =
            c.pin.elbow_radius ^ 2 ∧
          -c.pin.elbow_radius ≤ p.y ∧ p.y ≤ 0 ∧
          pinBelowZ c ≤ p.z ∧ p.z ≤ pinBelowZ c + c.pin.elbow_radius} ∪
    {p | p.x = 0 ∧ pinEndY c ≤ p.y ∧ p.y ≤ -c.pin.elbow_radius ∧
          p.z = pinBelowZ c}

/-- The swept, end-filleted pin: all points within `cfg.pin.radius` of the
path. -/
def pinSet (c : Cfg) : Set V3 :=
  {p | ∃ q ∈ pinPath c, sqDist p q ≤ c.pin.radius ^ 2}

/-! ## `Connector.__init__` -/

/-- `x_adjust = cfg.pin.pos[3] + x_3_to_4/2` with
`x_3_to_4 = cfg.pin.pos[4] - cfg.pin.pos[3]`. -/
def xAdjust : ℚ := pinPos 3 + (pinPos 4 - pinPos 3) / 2

/-- `mirror = Rot(0, 0, angle)` with `angle = 180 if mirror_image else 0`. -/
def mirrorRot (mirror_image : Bool) : V3 → V3 :=
  if mirror_image then rotZ180 else id

/-- `loc * mirror` applied to the pin template and moved to pin `i`'s
location: rotate first, then translate along X by `pos[i]`. -/
def pinLoc (mirror_image : Bool) (i : ℕ) (p : V3) : V3 :=
  translV ⟨pinPos i, 0, 0⟩ (mirrorRot mirror_image p)

/-- Pin `i` of the pre-transform assembly. -/
def placedPin (c : Cfg) (mirror_image : Bool) (i : ℕ) : Set V3 :=
  pinLoc mirror_image i '' pinSet c

/-- `objects[1].bounding_box().min.Z`: the lowest Z of the first placed pin.
Modelled kernel bounding-box query: the path's lowest point is at
`Z = below_y` and the sweep adds `cfg.pin.radius` below it; the placement
(an X translation, possibly preceded by `Rot(0,0,180)`) leaves the Z extent
unchanged.  The characterization is proved in `pin_lowest_le` /
`pin_lowest_mem` below. -/
def pinBBoxMinZ (c : Cfg) : ℚ := pinBelowZ c - c.pin.radius

/-- `pin_z_adjust = objects[1].bounding_box().min.Z + cfg.pin.radius`. -/
def pinZAdjust (c : Cfg) : ℚ := pinBBoxMinZ c + c.pin.radius

/-- `final_pos` exactly as accumulated in the source: recentering
translation, then the conditional mirror rotation, then the vertical pin
shift, then `Rot(90, 0, 0)`, then the final lift. -/
def finalMap (c : Cfg) (mirror_image : Bool) (p : V3) : V3 :=
  translV ⟨0, 0, c.body.height / 2 + c.standoffs.height⟩
    (rotX90
      (translV ⟨0, 0, -pinZAdjust c⟩
        (mirrorRot mirror_image (translV ⟨-xAdjust, 0, 0⟩ p))))

/-- The children of the final `Compound`, in order: the body, then pins 1-7,
each moved by `final_pos`. -/
def connectorParts (c : Cfg) (mirror_image : Bool) : List (Set V3) :=
  (finalMap c mirror_image '' bodySet c) ::
    List.ofFn fun i : Fin 7 => finalMap c mirror_image '' placedPin c mirror_image i

/-- All material points of the finished connector. -/
def connectorSet (c : Cfg) (mirror_image : Bool) : Set V3 :=
  finalMap c mirror_image '' (bodySet c ∪ ⋃ i : Fin 7, placedPin c mirror_image i)

/-! ## The export loop -/

/-- `variants = {'right': Connector(False), 'left': Connector(True)}`,
kept in source order as label/mirror-flag pairs. -/
def variantList : List (String × Bool) := [("right", false), ("left", true)]

/-- The f-string
`f"SNES Controller Connector.pretty/snes_connector_(variant).stp"`. -/
def exportFileName (variant : String) : String :=
  "SNES Controller Connector.pretty/snes_connector_" ++ variant ++ ".stp"

/-- The file names written by the export loop, in order. -/
def exportedFiles : List String := variantList.map fun vb => exportFileName vb.1

/-! ## Spec-side definitions

These follow the wording of the specification (and of the claims derived
from it), to be compared with the source-derived definitions above. -/

/-- Spec step 1: "a recentering translation placing the origin midway
between pin 4 and pin 5 (at `-(pos[3] + (pos[4]-pos[3])/2)`)". -/
def recenterStep : V3 → V3 :=
  translV ⟨-(pinPos 3 + (pinPos 4 - pinPos 3) / 2), 0, 0⟩

/-- Spec step 2: "a 180-degree yaw rotation if and only if mirror_image is
true". -/
def yawStep (mirror_image : Bool) : V3 → V3 :=
  if mirror_image then rotZ180 else id

/-- The lowest Z reached by any point of the pin solid (characterized
against `pinSet` in `pin_lowest_le` / `pin_lowest_mem`). -/
def lowestPinPointZ (c : Cfg) : ℚ := pinBelowZ c - c.pin.radius

/-- Spec step 3: "a vertical shift by -(lowest pin point + pin radius)". -/
def dropStep (c : Cfg) : V3 → V3 :=
  translV ⟨0, 0, -(lowestPinPointZ c + c.pin.radius)⟩

/-- Spec step 4: "a 90-degree pitch rotation about the X axis". -/
def pitchStep : V3 → V3 := rotX90

/-- Spec step 5: "a final vertical lift by cfg.body.height/2 +
cfg.body.standoffs.height". -/
def liftStep (c : Cfg) : V3 → V3 :=
  translV ⟨0, 0, c.body.height / 2 + c.standoffs.height⟩

/-- Spec 4.2 step 1: "extrude the outer profile to full body depth". -/
def specOuterSolid : Set V3 := extrudeZ (semiStadium 38.7 12 1.75) 0 13.4

/-- Spec 4.2: "subtract the inner profile (reduced by wall thickness),
offset from the front face, to hollow the shell": both cross-section
dimensions shrink by twice the 1.6 wall, the carve runs from the front face
back to `z = 1.6`. -/
def specInnerSolid : Set V3 :=
  extrudeZ (semiStadium (38.7 - 2 * 1.6) (12 - 2 * 1.6) 1) 1.6 13.4

/-- Spec 4.2: "add an enlarged outer profile at the front face, extruded by
the flange thickness". -/
def specFlangeSolid : Set V3 :=
  extrudeZ (semiStadium (38.7 + 2 * 1.95) (12 + 2 * 1.95) 1.75) (13.4 - 2) 13.4

/-- Spec 4.2: "add standoff boxes at four symmetric 2x2 grid positions". -/
def specStandoffsSolid : Set V3 :=
  (boxAt 11.25 6.25 0.6 0.25 0 13.4 ∪ boxAt 11.25 (-6.25) 0.6 0.25 0 13.4) ∪
    (boxAt (-11.25) 6.25 0.6 0.25 0 13.4 ∪ boxAt (-11.25) (-6.25) 0.6 0.25 0 13.4)

/-- The body built by the claim's step order: (1) extrude outer, (2)
subtract inner, (3) add flange, (4) add standoffs, (5) add inserts, (6) add
grip and cut notches.  Note the cavity is subtracted BEFORE the flange is
added here, as the claim lists the steps. -/
def claimedOrderBody : Set V3 :=
  (((((specOuterSolid \ specInnerSolid) ∪ specFlangeSolid) ∪ specStandoffsSolid) ∪
        insertsSolid defaultCfg) ∪ gripSolid defaultCfg) \ notchesSolid defaultCfg

/-- The same six steps with the flange added before the cavity subtraction
(the source's actual order, so the carve also hollows the flange ring). -/
def amendedOrderBody : Set V3 :=
  (((((specOuterSolid ∪ specFlangeSolid) \ specInnerSolid) ∪ specStandoffsSolid) ∪
        insertsSolid defaultCfg) ∪ gripSolid defaultCfg) \ notchesSolid defaultCfg

/-- An axis-aligned bounding box, as the set of points it contains. -/
def inBoxSet (lo hi : V3) : Set V3 :=
  {p | lo.x ≤ p.x ∧ p.x ≤ hi.x ∧ lo.y ≤ p.y ∧ p.y ≤ hi.y ∧
        lo.z ≤ p.z ∧ p.z ≤ hi.z}

/-! ## Helper lemmas: up/down symmetry of the sketches and of the body -/

theorem cornerCut_flip (cx cy sx sy f : ℚ) (q : V2) :
    flipY2 q ∈ cornerCut cx cy sx sy f ↔ q ∈ cornerCut cx (-cy) sx (-sy) f := by
  unfold cornerCut flipY2
  simp only [Set.mem_setOf_eq]
  have hx : sx * ((⟨q.x, -q.y⟩ : V2).x - cx) = sx * (q.x - cx) := rfl
  have hy : sy * ((⟨q.x, -q.y⟩ : V2).y - cy) = -sy * (q.y - -cy) := by
    show sy * (-q.y - cy) = -sy * (q.y - -cy); ring
  rw [hx, hy]

theorem cornerPair_flip (cx h2 sx f : ℚ) (q : V2) :
    flipY2 q ∈ cornerCut cx h2 sx (-1) f ∪ cornerCut cx (-h2) sx 1 f ↔
      q ∈ cornerCut cx h2 sx (-1) f ∪ cornerCut cx (-h2) sx 1 f := by
  simp only [Set.mem_union]
  have e1 := cornerCut_flip cx h2 sx (-1) f q
  have e2 := cornerCut_flip cx (-h2) sx 1 f q
  rw [neg_neg] at e1
  rw [neg_neg] at e2
  rw [e1, e2]
  exact or_comm

theorem ssRect_flip (w h : ℚ) (q : V2) :
    flipY2 q ∈ ssRect w h ↔ q ∈ ssRect w h := by
  unfold ssRect flipY2
  simp only [Set.mem_setOf_eq]
  have : |(⟨q.x, -q.y⟩ : V2).y| = |q.y| := abs_neg q.y
  rw [this]

theorem ssDisk_flip (w h : ℚ) (q : V2) :
    flipY2 q ∈ ssDisk w h ↔ q ∈ ssDisk w h := by
  unfold ssDisk flipY2
  simp only [Set.mem_setOf_eq]
  have : ((⟨q.x, -q.y⟩ : V2).y) ^ 2 = q.y ^ 2 := neg_sq q.y
  rw [this]

theorem semiStadium_flip (w h f : ℚ) (q : V2) :
    flipY2 q ∈ semiStadium w h f ↔ q ∈ semiStadium w h f := by
  unfold semiStadium
  by_cases hf : 0 < f
  · simp only [if_pos hf, filletSS, Set.mem_union, Set.mem_diff]
    rw [ssRect_flip, ssDisk_flip,
      show (flipY2 q ∈ cornerCut (-(w / 2)) (h / 2) 1 (-1) f ∨
          flipY2 q ∈ cornerCut (-(w / 2)) (-(h / 2)) 1 1 f) ↔
        (q ∈ cornerCut (-(w / 2)) (h / 2) 1 (-1) f ∨
          q ∈ cornerCut (-(w / 2)) (-(h / 2)) 1 1 f) from
        (Set.mem_union _ _ _).symm.trans
          ((cornerPair_flip (-(w / 2)) (h / 2) 1 f q).trans (Set.mem_union _ _ _))]
  · simp only [if_neg hf, plainSS, Set.mem_union]
    rw [ssRect_flip, ssDisk_flip]

theorem reflY_invol (p : V3) : reflY (reflY p) = p := by
  unfold reflY; simp

theorem reflX_invol (p : V3) : reflX (reflX p) = p := by
  unfold reflX; simp

theorem image_eq_of_mem_iff {f : V3 → V3} (hf : ∀ p, f (f p) = p) {S : Set V3}
    (h : ∀ p, f p ∈ S ↔ p ∈ S) : f '' S = S := by
  ext q
  constructor
  · rintro ⟨p, hp, rfl⟩
    exact (h p).2 hp
  · intro hq
    exact ⟨f q, (h q).2 hq, hf q⟩

theorem extrudeZ_flip {S : Set V2} (hS : ∀ q, flipY2 q ∈ S ↔ q ∈ S)
    (z0 z1 : ℚ) (p : V3) :
    reflY p ∈ extrudeZ S z0 z1 ↔ p ∈ extrudeZ S z0 z1 := by
  unfold extrudeZ reflY
  simp only [Set.mem_setOf_eq]
  have hp : proj2 (⟨p.x, -p.y, p.z⟩ : V3) = flipY2 (proj2 p) := rfl
  have hz : (⟨p.x, -p.y, p.z⟩ : V3).z = p.z := rfl
  rw [hp, hz, hS]

theorem boxAt_flip (cx cy hw hh z0 z1 : ℚ) (p : V3) :
    reflY p ∈ boxAt cx cy hw hh z0 z1 ↔ p ∈ boxAt cx (-cy) hw hh z0 z1 := by
  unfold boxAt reflY
  simp only [Set.mem_setOf_eq]
  have hx : (⟨p.x, -p.y, p.z⟩ : V3).x = p.x := rfl
  have hz : (⟨p.x, -p.y, p.z⟩ : V3).z = p.z := rfl
  have hy : |(⟨p.x, -p.y, p.z⟩ : V3).y - cy| = |p.y - -cy| := by
    show |-p.y - cy| = |p.y - -cy|
    rw [show (-p.y - cy : ℚ) = -(p.y - -cy) by ring, abs_neg]
  rw [hx, hz, hy]

theorem boxPair_flip (cx cy hw hh z0 z1 : ℚ) (p : V3) :
    reflY p ∈ boxAt cx cy hw hh z0 z1 ∪ boxAt cx (-cy) hw hh z0 z1 ↔
      p ∈ boxAt cx cy hw hh z0 z1 ∪ boxAt cx (-cy) hw hh z0 z1 := by
  simp only [Set.mem_union]
  rw [boxAt_flip, boxAt_flip, neg_neg]
  exact or_comm

theorem baseSolid_flip (c : Cfg) (p : V3) :
    reflY p ∈ baseSolid c ↔ p ∈ baseSolid c :=
  extrudeZ_flip (semiStadium_flip _ _ _) _ _ p

theorem flangeSolid_flip (c : Cfg) (p : V3) :
    reflY p ∈ flangeSolid c ↔ p ∈ flangeSolid c :=
  extrudeZ_flip (semiStadium_flip _ _ _) _ _ p

theorem cavitySolid_flip (c : Cfg) (p : V3) :
    reflY p ∈ cavitySolid c ↔ p ∈ cavitySolid c :=
  extrudeZ_flip (semiStadium_flip _ _ _) _ _ p

theorem standoffsSolid_flip (c : Cfg) (p : V3) :
    reflY p ∈ standoffsSolid c ↔ p ∈ standoffsSolid c := by
  unfold standoffsSolid
  have h1 := boxPair_flip (c.standoffSpacing / 2)
    ((c.body.height + c.standoffs.height) / 2) (c.standoffWidth / 2)
    (c.standoffs.height / 2) 0 c.standoffDepth p
  have h2 := boxPair_flip (-(c.standoffSpacing / 2))
    ((c.body.height + c.standoffs.height) / 2) (c.standoffWidth / 2)
    (c.standoffs.height / 2) 0 c.standoffDepth p
  exact (Set.mem_union _ _ _).trans
    ((or_congr h1 h2).trans (Set.mem_union _ _ _).symm)

theorem punchRect_flip (c : Cfg) (q : V2) :
    flipY2 q ∈ punchRect c ↔ q ∈ punchRect c := by
  unfold punchRect flipY2
  simp only [Set.mem_setOf_eq]
  have hx : (⟨q.x, -q.y⟩ : V2).x = q.x := rfl
  have hy : |(⟨q.x, -q.y⟩ : V2).y| = |q.y| := abs_neg q.y
  rw [hx, hy]

theorem insertCornerCuts_flip (c : Cfg) (q : V2) :
    flipY2 q ∈ insertCornerCuts c ↔ q ∈ insertCornerCuts c := by
  unfold insertCornerCuts
  have h1 := cornerPair_flip (-(c.insertsWidth / 2)) (c.inserts.height / 2) 1
    c.inserts.fillet q
  have h2 := cornerPair_flip (punchCenter - c.inserts.gap / 2)
    (c.inserts.height / 2) (-1) c.inserts.fillet q
  have h3 := cornerPair_flip (punchCenter + c.inserts.gap / 2)
    (c.inserts.height / 2) 1 c.inserts.fillet q
  exact (Set.mem_union _ _ _).trans
    ((or_congr ((Set.mem_union _ _ _).trans
        ((or_congr h1 h2).trans (Set.mem_union _ _ _).symm)) h3).trans
      (Set.mem_union _ _ _).symm)

theorem insertHoles_flip (c : Cfg) (q : V2) :
    flipY2 q ∈ insertHoles c ↔ q ∈ insertHoles c := by
  unfold insertHoles flipY2
  simp only [Set.mem_iUnion, Set.mem_setOf_eq]
  have hx : ∀ i : Fin 7, ((⟨q.x, -q.y⟩ : V2).x - pinPos i) ^ 2 = (q.x - pinPos i) ^ 2 :=
    fun i => rfl
  have hy : ((⟨q.x, -q.y⟩ : V2).y) ^ 2 = q.y ^ 2 := neg_sq q.y
  constructor
  · rintro ⟨i, hi⟩
    exact ⟨i, by rw [hx i, hy] at hi; exact hi⟩
  · rintro ⟨i, hi⟩
    exact ⟨i, by rw [hx i, hy]; exact hi⟩

theorem insertProfile_flip (c : Cfg) (q : V2) :
    flipY2 q ∈ insertProfile c ↔ q ∈ insertProfile c := by
  unfold insertProfile
  simp only [Set.mem_diff]
  rw [semiStadium_flip, punchRect_flip, insertCornerCuts_flip, insertHoles_flip]

theorem insertsSolid_flip (c : Cfg) (p : V3) :
    reflY p ∈ insertsSolid c ↔ p ∈ insertsSolid c :=
  extrudeZ_flip (insertProfile_flip c) _ _ p

theorem gripSolid_flip (c : Cfg) (p : V3) :
    reflY p ∈ gripSolid c ↔ p ∈ gripSolid c := by
  unfold gripSolid
  rw [boxAt_flip, neg_zero]

theorem notchesSolid_flip (c : Cfg) (p : V3) :
    reflY p ∈ notchesSolid c ↔ p ∈ notchesSolid c := by
  unfold notchesSolid
  simp only [Set.mem_iUnion]
  constructor
  · rintro ⟨i, hi⟩
    exact ⟨i, by rw [boxAt_flip, neg_zero] at hi; exact hi⟩
  · rintro ⟨i, hi⟩
    exact ⟨i, by rw [boxAt_flip, neg_zero]; exact hi⟩

theorem bodySet_flip (c : Cfg) (p : V3) :
    reflY p ∈ bodySet c ↔ p ∈ bodySet c := by
  unfold bodySet
  simp only [Set.mem_diff, Set.mem_union]
  rw [baseSolid_flip, flangeSolid_flip, cavitySolid_flip, standoffsSolid_flip,
    insertsSolid_flip, gripSolid_flip, notchesSolid_flip]

/-! ## Helper lemmas: the pin -/

theorem pinPath_x (c : Cfg) (q : V3) (hq : q ∈ pinPath c) : q.x = 0 := by
  rcases hq with (h | h) | h
  · exact h.1
  · exact h.1
  · exact h.1

theorem pinSet_reflX (c : Cfg) (p : V3) :
    reflX p ∈ pinSet c ↔ p ∈ pinSet c := by
  unfold pinSet
  simp only [Set.mem_setOf_eq]
  constructor
  · rintro ⟨q, hq, hd⟩
    refine ⟨q, hq, ?_⟩
    have hx := pinPath_x c q hq
    have he : sqDist p q = sqDist (reflX p) q := by
      unfold sqDist reflX
      dsimp only
      rw [hx]
      ring
    rw [he]
    exact hd
  · rintro ⟨q, hq, hd⟩
    refine ⟨q, hq, ?_⟩
    have hx := pinPath_x c q hq
    have he : sqDist (reflX p) q = sqDist p q := by
      unfold sqDist reflX
      dsimp only
      rw [hx]
      ring
    rw [he]
    exact hd

theorem pinPath_z_le (c : Cfg) (hr : 0 ≤ c.pin.elbow_radius) (q : V3)
    (hq : q ∈ pinPath c) : pinBelowZ c ≤ q.z := by
  rcases hq with (h | h) | h
  · linarith [h.2.2.1]
  · linarith [h.2.2.2.2.1]
  · linarith [h.2.2.2.le, h.2.2.2.ge]

theorem pinSet_z_le (c : Cfg) (hr : 0 ≤ c.pin.elbow_radius)
    (hrad : 0 ≤ c.pin.radius) (p : V3) (hp : p ∈ pinSet c) :
    pinBelowZ c - c.pin.radius ≤ p.z := by
  obtain ⟨q, hq, hd⟩ := hp
  have hz := pinPath_z_le c hr q hq
  have hsq : (p.z - q.z) ^ 2 ≤ c.pin.radius ^ 2 := by
    unfold sqDist at hd
    nlinarith [sq_nonneg (p.x - q.x), sq_nonneg (p.y - q.y)]
  nlinarith [sq_nonneg (p.z - q.z + c.pin.radius)]

/-! ## Helper lemmas: the assembly transform and mirroring -/

theorem finalMap_true_eq (c : Cfg) (p : V3) :
    finalMap c true p = reflX (finalMap c false (reflY p)) := by
  simp only [finalMap, mirrorRot, if_true, Bool.false_eq_true, if_false,
    translV, rotX90, rotZ180, reflX, reflY, id]
  simp only [V3.mk.injEq]
  refine ⟨by ring_nf, by ring_nf, by ring_nf⟩

theorem reflY_pinLoc (i : ℕ) (p : V3) :
    reflY (pinLoc true i p) = pinLoc false i (reflX p) := by
  simp only [pinLoc, mirrorRot, if_true, Bool.false_eq_true, if_false,
    translV, rotZ180, reflX, reflY, id]
  simp only [V3.mk.injEq]
  refine ⟨by ring_nf, by ring_nf, by ring_nf⟩

theorem placedPin_flip (c : Cfg) (i : ℕ) :
    reflY '' placedPin c true i = placedPin c false i := by
  unfold placedPin
  rw [← Set.image_comp]
  have hfun : reflY ∘ pinLoc true i = pinLoc false i ∘ reflX :=
    funext fun p => reflY_pinLoc i p
  rw [hfun, Set.image_comp]
  have : reflX '' pinSet c = pinSet c :=
    image_eq_of_mem_iff reflX_invol (pinSet_reflX c)
  rw [this]

theorem preAssembly_flip (c : Cfg) :
    reflY '' (bodySet c ∪ ⋃ i : Fin 7, placedPin c true i) =
      bodySet c ∪ ⋃ i : Fin 7, placedPin c false i := by
  rw [Set.image_union, Set.image_iUnion]
  have h1 : reflY '' bodySet c = bodySet c :=
    image_eq_of_mem_iff reflY_invol (bodySet_flip c)
  have h2 : ∀ i : Fin 7, reflY '' placedPin c true i = placedPin c false i :=
    fun i => placedPin_flip c i
  rw [h1]
  exact congrArg (bodySet c ∪ ·) (Set.iUnion_congr h2)

theorem connector_mirror (c : Cfg) :
    connectorSet c true = reflX '' connectorSet c false := by
  unfold connectorSet
  have hfun : finalMap c true = reflX ∘ (finalMap c false ∘ reflY) :=
    funext fun p => finalMap_true_eq c p
  rw [hfun, Set.image_comp, Set.image_comp, preAssembly_flip]

/-! ## Claim theorems -/

/-- C1: the pin position list has exactly 7 elements, is strictly
increasing, and consecutive spacing is the 4 mm pitch everywhere except
between `pos[3]` and `pos[4]`, where the extra 2.5 mm gap is added exactly
once, giving 6.5 mm. -/
theorem c1_pin_positions :
    pinPosList.length = 7 ∧
    List.Chain' (· < ·) pinPosList ∧
    (∀ i : Fin 6, pinPos (i.val + 1) - pinPos i.val =
      (if i.val = 3 then 4 + 2.5 else 4)) ∧
    (4 : ℚ) + 2.5 = 6.5 := by
  refine ⟨?_, ?_, ?_, by norm_num⟩
  · norm_num [pinPosList]
  · norm_num [pinPosList, pinPos, pinP0, gaps, List.range_succ, List.chain'_cons]
  · intro i
    fin_cases i <;> norm_num [pinPos, pinP0, gaps]

/-- C5 counterexample: not every dimension of `cfg.body.cavity` is smaller
than the corresponding `cfg.body` dimension by at least twice the 1.6 mm
wall: the depth is smaller by only 1.6 mm. -/
theorem c5_counterexample :
    ¬(2 * 1.6 ≤ defaultCfg.body.width - defaultCfg.cavityWidth ∧
      2 * 1.6 ≤ defaultCfg.body.height - defaultCfg.cavityHeight ∧
      2 * 1.6 ≤ defaultCfg.body.depth - defaultCfg.cavityDepth) := by
  intro h
  have hd := h.2.2
  norm_num [Cfg.cavityDepth, defaultCfg] at hd

/-- C5 amended: the cavity's 2D profile dimensions (width and height) are
smaller than the body's by exactly twice the 1.6 mm wall thickness, while
the depth is smaller by exactly one wall thickness (the front end is the
open mating face, so only the back wall remains); every cavity dimension is
strictly smaller than the corresponding body dimension. -/
theorem c5_cavity_wall :
    defaultCfg.body.width - defaultCfg.cavityWidth = 2 * 1.6 ∧
    defaultCfg.body.height - defaultCfg.cavityHeight = 2 * 1.6 ∧
    defaultCfg.body.depth - defaultCfg.cavityDepth = 1.6 ∧
    defaultCfg.cavityWidth < defaultCfg.body.width ∧
    defaultCfg.cavityHeight < defaultCfg.body.height ∧
    defaultCfg.cavityDepth < defaultCfg.body.depth ∧
    (0 : ℚ) < 1.6 := by
  norm_num [Cfg.cavityWidth, Cfg.cavityHeight, Cfg.cavityDepth, defaultCfg]

/-- C6: the pin path coordinates are the stated pure functions of the
body/insert parameters (evaluating to 13.2, -3.1, -9 with bend radius 1.2 =
pin diameter at the defaults), and they respond to parameter changes:
shifting the body depth or insert stickout shifts the start coordinate
one-for-one, and raising the body height lowers the exit coordinate by half
as much. -/
theorem c6_pin_path_derived :
    (∀ c : Cfg, pinStartZ c = c.body.depth + c.inserts.stickout - c.pin.insert_recess) ∧
    (∀ c : Cfg, pinBelowZ c = -(c.grip.depth + c.pin.rear_stickout)) ∧
    (∀ c : Cfg, pinEndY c = -(c.body.height / 2 + c.pin.pcb_stickout)) ∧
    (∀ c : Cfg, c.pin.elbow_radius = c.pin.diameter) ∧
    pinStartZ defaultCfg = 13.2 ∧
    pinBelowZ defaultCfg = -3.1 ∧
    pinEndY defaultCfg = -9 ∧
    defaultCfg.pin.elbow_radius = 1.2 ∧
    (∀ (c : Cfg) (d : ℚ),
      pinStartZ { c with body := { c.body with depth := d } } =
        pinStartZ c + (d - c.body.depth)) ∧
    (∀ (c : Cfg) (s : ℚ),
      pinStartZ { c with inserts := { c.inserts with stickout := s } } =
        pinStartZ c + (s - c.inserts.stickout)) ∧
    (∀ (c : Cfg) (h : ℚ),
      pinEndY { c with body := { c.body with height := h } } =
        pinEndY c - (h - c.body.height) / 2) := by
  refine ⟨fun c => rfl, fun c => rfl, fun c => rfl, fun c => rfl, ?_, ?_, ?_, ?_,
    fun c d => ?_, fun c s => ?_, fun c h => ?_⟩
  · norm_num [pinStartZ, defaultCfg]
  · norm_num [pinBelowZ, defaultCfg]
  · norm_num [pinEndY, defaultCfg]
  · norm_num [PinCfg.elbow_radius, defaultCfg]
  · unfold pinStartZ
    dsimp only
    ring
  · unfold pinStartZ
    dsimp only
    ring
  · unfold pinEndY
    dsimp only
    ring

/-- C8: resolving a pin index in range yields the position; an index at or
beyond the 7-contact count fails fast with the descriptive (non-empty)
Python message `list index out of range` instead of returning geometry. -/
theorem c8_pin_index_bounds :
    (∀ i : ℕ, i < 7 → resolvePin i = Except.ok (pinPos i)) ∧
    (∀ i : ℕ, 7 ≤ i → resolvePin i = Except.error "list index out of range") ∧
    "list index out of range" ≠ "" := by
  have hlen : pinPosList.length = 7 := by norm_num [pinPosList]
  refine ⟨?_, ?_, by decide⟩
  · intro i hi
    interval_cases i <;> norm_num [resolvePin, pinPosList]
  · intro i hi
    unfold resolvePin
    rw [dif_neg]
    rw [hlen]
    omega

/-- C8 witness: index 2 resolves, index 9 raises. -/
theorem c8_pin_index_bounds_witness :
    resolvePin 2 = Except.ok (pinPos 2) ∧
    resolvePin 9 = Except.error "list index out of range" :=
  ⟨c8_pin_index_bounds.1 2 (by norm_num), c8_pin_index_bounds.2.1 9 (by norm_num)⟩

/-- C10 counterexample: the pointwise symmetry `pos[i] = -pos[6-i]` fails
at `i = 3`: `pos[3] = -1.25`, not `+1.25`. -/
theorem c10_counterexample :
    pinPos 3 = -(5 / 4) ∧ pinPos 3 ≠ -pinPos (6 - 3) := by
  norm_num [pinPos, pinP0, gaps]

/-- C10 amended: the first position is `-sum(gaps)/2` and `pos[i] =
-pos[6-i]` holds for every index except 3 (in particular the endpoints are
symmetric, so the row's span is centered on the origin), but `pos[3] =
-1.25 ≠ 0`, so the 7-point set itself is NOT symmetric about the origin.
The 180-degree rotation still produces the mirrored pin row because it
sends each pin location `x` to `-x`, i.e. to the reflected location set,
independently of any row symmetry. -/
theorem c10_pin_row_symmetry :
    pinPos 0 = -gaps.sum / 2 ∧
    (∀ i : Fin 7, i.val ≠ 3 → pinPos i.val = -pinPos (6 - i.val)) ∧
    pinPos 3 = -(5 / 4) ∧
    pinPos 0 = -pinPos 6 ∧
    (∀ i : Fin 7, rotZ180 ⟨pinPos i.val, 0, 0⟩ = ⟨-pinPos i.val, 0, 0⟩) := by
  refine ⟨?_, ?_, ?_, ?_, ?_⟩
  · norm_num [pinPos, pinP0, gaps]
  · intro i hi
    fin_cases i <;> simp_all <;> norm_num [pinPos, pinP0, gaps]
  · norm_num [pinPos, pinP0, gaps]
  · norm_num [pinPos, pinP0, gaps]
  · intro i
    simp [rotZ180]

/-- C10 witness: the symmetry instance at index 1. -/
theorem c10_pin_row_symmetry_witness : pinPos 1 = -pinPos 5 :=
  c10_pin_row_symmetry.2.1 ⟨1, by norm_num⟩ (by norm_num)

theorem semiStadium_pos {w h f : ℚ} (hf : 0 < f) :
    semiStadium w h f = filletSS w h f := if_pos hf

theorem semiStadium_nonpos {w h f : ℚ} (hf : ¬0 < f) :
    semiStadium w h f = plainSS w h := if_neg hf

theorem pinSet_sample : (⟨0, -5, -31 / 10⟩ : V3) ∈ pinSet defaultCfg := by
  refine ⟨⟨0, -5, -31 / 10⟩, Set.mem_union_right _ ?_, ?_⟩
  · simp only [Set.mem_setOf_eq]
    norm_num [pinEndY, pinBelowZ, PinCfg.elbow_radius, defaultCfg]
  · norm_num [sqDist, PinCfg.radius, defaultCfg]

theorem pinSet_lowest_sample :
    (⟨0, -5, -37 / 10⟩ : V3) ∈ pinSet defaultCfg ∧
      (⟨0, -5, -37 / 10⟩ : V3).z = lowestPinPointZ defaultCfg := by
  constructor
  · refine ⟨⟨0, -5, -31 / 10⟩, Set.mem_union_right _ ?_, ?_⟩
    · simp only [Set.mem_setOf_eq]
      norm_num [pinEndY, pinBelowZ, PinCfg.elbow_radius, defaultCfg]
    · norm_num [sqDist, PinCfg.radius, defaultCfg]
  · norm_num [lowestPinPointZ, pinBelowZ, PinCfg.radius, defaultCfg]

/-- C2: the assembly transform is, for either handedness, exactly the
spec's five steps applied in the spec's order: recenter (by
`-(pos[3] + (pos[4]-pos[3])/2) = -2`, not the bounding-box center `0`),
conditional 180-degree yaw, vertical drop by `-(lowest pin point +
pin radius)`, 90-degree pitch about X, and final lift by `body.height/2 +
standoffs.height = 6.5`; the "lowest pin point" value is genuinely the
minimum Z over the pin solid. -/
theorem c2_transform_order :
    (∀ (m : Bool) (p : V3),
      finalMap defaultCfg m p =
        liftStep defaultCfg
          (pitchStep (dropStep defaultCfg (yawStep m (recenterStep p))))) ∧
    recenterStep = translV ⟨-xAdjust, 0, 0⟩ ∧
    xAdjust = 2 ∧ (2 : ℚ) ≠ 0 ∧
    (∀ p ∈ pinSet defaultCfg, lowestPinPointZ defaultCfg ≤ p.z) ∧
    (∃ p ∈ pinSet defaultCfg, p.z = lowestPinPointZ defaultCfg) ∧
    -(lowestPinPointZ defaultCfg + defaultCfg.pin.radius) = 3.1 ∧
    defaultCfg.body.height / 2 + defaultCfg.standoffs.height = 6.5 := by
  refine ⟨?_, rfl, ?_, by norm_num, ?_, ?_, ?_, ?_⟩
  · intro m p
    cases m <;>
      · simp only [finalMap, liftStep, pitchStep, dropStep, yawStep, recenterStep,
          mirrorRot, translV, rotX90, rotZ180, id, if_true, Bool.false_eq_true,
          if_false, pinZAdjust, pinBBoxMinZ, lowestPinPointZ, xAdjust]
  · norm_num [xAdjust, pinPos, pinP0, gaps]
  · intro p hp
    have h := pinSet_z_le defaultCfg
      (by norm_num [PinCfg.elbow_radius, defaultCfg])
      (by norm_num [PinCfg.radius, defaultCfg]) p hp
    exact h
  · exact ⟨⟨0, -5, -37 / 10⟩, pinSet_lowest_sample.1, pinSet_lowest_sample.2⟩
  · norm_num [lowestPinPointZ, pinBelowZ, PinCfg.radius, defaultCfg]
  · norm_num [defaultCfg]

/-- C2 witness: the lower bound applied at the concrete pin point
`(0, -5, -3.1)`. -/
theorem c2_transform_order_witness :
    lowestPinPointZ defaultCfg ≤ (⟨0, -5, -31 / 10⟩ : V3).z :=
  c2_transform_order.2.2.2.2.1 ⟨0, -5, -31 / 10⟩ pinSet_sample

/-- C9: with `fillet_radius = 0` the plain `Polyline` branch is taken and
no fillet operation runs (`filletInvoked` is `false`, and it is `true`
exactly when the radius is positive); when it runs, the fillet cuts touch
only the two flat-end corner vertices — any point to the right of the
corner band, and in particular the whole semicircular end of radius
`height/2`, is unaffected. -/
theorem c9_zero_fillet :
    (∀ w h : ℚ, semiStadium w h 0 = plainSS w h) ∧
    filletInvoked 0 = false ∧
    (∀ f : ℚ, filletInvoked f = true ↔ 0 < f) ∧
    (∀ w h f : ℚ, 0 < f →
      semiStadium w h f =
        (ssRect w h \
            (cornerCut (-(w / 2)) (h / 2) 1 (-1) f ∪
              cornerCut (-(w / 2)) (-(h / 2)) 1 1 f)) ∪ ssDisk w h) ∧
    (∀ (w h f : ℚ) (q : V2), -(w / 2) + f < q.x →
      (q ∈ semiStadium w h f ↔ q ∈ semiStadium w h 0)) ∧
    (∀ (w h f : ℚ) (q : V2), ssArcX w h ≤ q.x →
      (q ∈ semiStadium w h f ↔ q ∈ ssDisk w h)) := by
  refine ⟨?_, ?_, ?_, ?_, ?_, ?_⟩
  · intro w h
    unfold semiStadium
    rw [if_neg (by norm_num)]
  · simp [filletInvoked]
  · intro f
    simp [filletInvoked]
  · intro w h f hf
    unfold semiStadium
    rw [if_pos hf]
    rfl
  · intro w h f q hq
    rw [semiStadium_nonpos (show ¬(0 : ℚ) < (0 : ℚ) by norm_num)]
    by_cases hf : 0 < f
    · rw [semiStadium_pos hf]
      unfold filletSS plainSS
      simp only [Set.mem_union, Set.mem_diff]
      constructor
      · rintro (⟨hr, _⟩ | hd)
        · exact Or.inl hr
        · exact Or.inr hd
      · rintro (hr | hd)
        · refine Or.inl ⟨hr, ?_⟩
          rintro (⟨h1, h2, -⟩ | ⟨h1, h2, -⟩) <;>
            · rw [one_mul] at h2
              linarith
        · exact Or.inr hd
    · rw [semiStadium_nonpos hf]
  · intro w h f q hq
    have hdisk : q ∈ ssRect w h → q ∈ ssDisk w h := by
      rintro ⟨h1, h2, h3⟩
      have hx : q.x = ssArcX w h := le_antisymm h2 hq
      refine ⟨hq, ?_⟩
      rw [hx]
      obtain ⟨ha, hb⟩ := abs_le.1 h3
      nlinarith
    by_cases hf : 0 < f
    · rw [semiStadium_pos hf]
      constructor
      · rintro (⟨hr, -⟩ | hd)
        · exact hdisk hr
        · exact hd
      · intro hd
        exact Or.inr hd
    · rw [semiStadium_nonpos hf]
      constructor
      · rintro (hr | hd)
        · exact hdisk hr
        · exact hd
      · intro hd
        exact Or.inr hd

/-- C9 witness: the fillet branch identity at radius 1, and the interior
point `(0,0)` of a 4 x 2 semi-stadium unaffected by that fillet. -/
theorem c9_zero_fillet_witness :
    semiStadium 4 2 1 =
      (ssRect 4 2 \
          (cornerCut (-(4 / 2)) (2 / 2) 1 (-1) 1 ∪
            cornerCut (-(4 / 2)) (-(2 / 2)) 1 1 1)) ∪ ssDisk 4 2 ∧
    ((⟨0, 0⟩ : V2) ∈ semiStadium 4 2 1 ↔ (⟨0, 0⟩ : V2) ∈ semiStadium 4 2 0) :=
  ⟨c9_zero_fillet.2.2.2.1 4 2 1 (by norm_num),
    c9_zero_fillet.2.2.2.2.1 4 2 1 ⟨0, 0⟩ (by norm_num)⟩

theorem mem_reflX_image {S : Set V3} (p : V3) : p ∈ reflX '' S ↔ reflX p ∈ S := by
  constructor
  · rintro ⟨q, hq, rfl⟩
    rw [reflX_invol]
    exact hq
  · intro h
    exact ⟨reflX p, h, reflX_invol p⟩

/-- C3: the mirrored connector is the exact reflection across the plane
`x = 0` of the unmirrored one (pointwise equal as sets of material points),
the reflection is an isometry and an involution, it maps any axis-aligned
bounding box to one with identical width/height/depth, and it reverses
orientation while every map the source actually composes (the conditional
yaw, the whole assembly transform) preserves orientation — so the two
variants have identical bounding-box dimensions and opposite handedness
even though no true reflection operation is ever invoked. -/
theorem c3_mirror_image :
    connectorSet defaultCfg true = reflX '' connectorSet defaultCfg false ∧
    (∀ p q : V3, sqDist (reflX p) (reflX q) = sqDist p q) ∧
    (∀ p : V3, reflX (reflX p) = p) ∧
    orientation3 reflX = -1 ∧
    (∀ m : Bool, orientation3 (mirrorRot m) = 1) ∧
    (∀ m : Bool, orientation3 (finalMap defaultCfg m) = 1) ∧
    (∀ lo hi : V3, reflX '' inBoxSet lo hi =
      inBoxSet ⟨-hi.x, lo.y, lo.z⟩ ⟨-lo.x, hi.y, hi.z⟩) := by
  refine ⟨connector_mirror defaultCfg, ?_, reflX_invol, ?_, ?_, ?_, ?_⟩
  · intro p q
    unfold sqDist reflX
    dsimp only
    ring
  · norm_num [orientation3, reflX]
  · intro m
    cases m <;> norm_num [orientation3, mirrorRot, rotZ180, id]
  · intro m
    cases m <;>
      norm_num [orientation3, finalMap, mirrorRot, rotZ180, rotX90, translV, id]
  · intro lo hi
    ext p
    rw [mem_reflX_image]
    unfold inBoxSet reflX
    simp only [Set.mem_setOf_eq]
    constructor <;> rintro ⟨h1, h2, h3, h4, h5, h6⟩ <;>
      exact ⟨by linarith, by linarith, h3, h4, h5, h6⟩

theorem bodySet_sample : (⟨0, 0, 1 / 2⟩ : V3) ∈ bodySet defaultCfg := by
  refine ⟨Or.inl (Or.inl (Or.inl ⟨Or.inl ?_, ?_⟩)), ?_⟩
  · refine ⟨?_, by norm_num, by norm_num [defaultCfg]⟩
    rw [semiStadium_pos (by norm_num [defaultCfg])]
    refine Or.inl ⟨⟨?_, ?_, ?_⟩, ?_⟩
    · norm_num [proj2, defaultCfg]
    · norm_num [proj2, ssArcX, defaultCfg]
    · norm_num [proj2, defaultCfg]
    · rintro (⟨h1, h2, -⟩ | ⟨h1, h2, -⟩) <;>
        · rw [one_mul] at h2
          norm_num [proj2, defaultCfg] at h2
  · intro hc
    obtain ⟨-, hz, -⟩ := hc
    norm_num [Cfg.cavityDepth, defaultCfg] at hz
  · intro hn
    obtain ⟨i, hi⟩ := Set.mem_iUnion.1 hn
    obtain ⟨-, -, -, hz⟩ := hi
    norm_num [Cfg.notchDepth, defaultCfg] at hz

/-- C7: the default run exports exactly two files, deterministically named
from the variant labels `right` and `left`; each exported compound has
exactly 8 children — the body first, then the seven pins — and every child
(hence each exported assembly) is a non-empty solid. -/
theorem c7_export_files :
    exportedFiles = ["SNES Controller Connector.pretty/snes_connector_right.stp",
      "SNES Controller Connector.pretty/snes_connector_left.stp"] ∧
    exportedFiles.length = 2 ∧
    exportedFiles.Nodup ∧
    (∀ vb ∈ variantList, exportFileName vb.1 =
      "SNES Controller Connector.pretty/snes_connector_" ++ vb.1 ++ ".stp") ∧
    variantList.map Prod.snd = [false, true] ∧
    (∀ m : Bool, (connectorParts defaultCfg m).length = 8) ∧
    (∀ m : Bool, (connectorParts defaultCfg m).head? =
      some (finalMap defaultCfg m '' bodySet defaultCfg)) ∧
    (∀ m : Bool, (connectorParts defaultCfg m).tail =
      List.ofFn fun i : Fin 7 => finalMap defaultCfg m '' placedPin defaultCfg m i) ∧
    (∀ m : Bool, ∀ s ∈ connectorParts defaultCfg m, s.Nonempty) := by
  refine ⟨rfl, rfl, by decide, fun vb _ => rfl, rfl, fun m => rfl, fun m => rfl,
    fun m => rfl, ?_⟩
  intro m s hs
  simp only [connectorParts, List.mem_cons, List.mem_ofFn] at hs
  rcases hs with h | ⟨i, rfl⟩
  · subst h
    exact ⟨finalMap defaultCfg m ⟨0, 0, 1 / 2⟩,
      Set.mem_image_of_mem _ bodySet_sample⟩
  · exact ⟨finalMap defaultCfg m (pinLoc m i ⟨0, -5, -31 / 10⟩),
      Set.mem_image_of_mem _ (Set.mem_image_of_mem _ pinSet_sample)⟩

/-- C7 witness: the name rule applied to the `right` variant, and the body
child of the right-handed export shown non-empty. -/
theorem c7_export_files_witness :
    exportFileName ("right", false).1 =
      "SNES Controller Connector.pretty/snes_connector_" ++ ("right", false).1 ++ ".stp" ∧
    (finalMap defaultCfg false '' bodySet defaultCfg).Nonempty :=
  ⟨c7_export_files.2.2.2.1 ("right", false) (by simp [variantList]),
    c7_export_files.2.2.2.2.2.2.2.2 false _ (by simp [connectorParts])⟩

/-- C4 counterexample: running the six steps in the claim's order (cavity
subtracted at step 2, flange added at step 3) yields a solid that contains
the point `(0, 4, 12.4)` — the flange profile would plug the cavity mouth —
while the body the source builds (flange added BEFORE the cavity carve)
does not contain it; moreover the flange profile's fillet (1.75) equals the
body fillet, it is not reduced. -/
theorem c4_counterexample :
    (⟨0, 4, 12.4⟩ : V3) ∈ claimedOrderBody ∧
    (⟨0, 4, 12.4⟩ : V3) ∉ bodySet defaultCfg ∧
    Cfg.flangeFillet defaultCfg = defaultCfg.body.fillet := by
  have hcav : (⟨0, 4, 12.4⟩ : V3) ∈ cavitySolid defaultCfg := by
    refine ⟨?_, ?_, ?_⟩
    · rw [semiStadium_pos (by norm_num [defaultCfg])]
      refine Or.inl ⟨⟨?_, ?_, ?_⟩, ?_⟩
      · norm_num [proj2, Cfg.cavityWidth, defaultCfg]
      · norm_num [proj2, ssArcX, Cfg.cavityWidth, Cfg.cavityHeight, defaultCfg]
      · norm_num [proj2, Cfg.cavityHeight, defaultCfg]
      · rintro (⟨h1, h2, -⟩ | ⟨h1, h2, -⟩) <;>
          · rw [one_mul] at h2
            norm_num [proj2, Cfg.cavityWidth, defaultCfg] at h2
    · norm_num [Cfg.cavityDepth, defaultCfg]
    · norm_num [defaultCfg]
  refine ⟨⟨Or.inl (Or.inl (Or.inl (Or.inr ?_))), ?_⟩, ?_, rfl⟩
  · refine ⟨?_, by norm_num, by norm_num⟩
    rw [semiStadium_pos (by norm_num)]
    refine Or.inl ⟨⟨?_, ?_, ?_⟩, ?_⟩
    · norm_num [proj2]
    · norm_num [proj2, ssArcX]
    · norm_num [proj2]
    · rintro (⟨h1, h2, -⟩ | ⟨h1, h2, -⟩) <;>
        · rw [one_mul] at h2
          norm_num [proj2] at h2
  · intro hn
    obtain ⟨i, hi⟩ := Set.mem_iUnion.1 hn
    obtain ⟨-, -, -, hz⟩ := hi
    norm_num [Cfg.notchDepth, defaultCfg] at hz
  · rintro ⟨(((⟨hbf, hnc⟩ | hso) | hins) | hgr), -⟩
    · exact hnc hcav
    · rcases hso with (h | h) | (h | h) <;>
        · obtain ⟨-, hy, -⟩ := h
          norm_num [abs_le, defaultCfg] at hy
    · obtain ⟨hprof, -, -⟩ := hins
      obtain ⟨⟨hss, -⟩, -⟩ := hprof
      rw [semiStadium_nonpos (by norm_num)] at hss
      rcases hss with hr | hd
      · obtain ⟨-, -, hy⟩ := hr
        norm_num [proj2, defaultCfg] at hy
      · obtain ⟨hx, -⟩ := hd
        norm_num [proj2, ssArcX, Cfg.insertsWidth, defaultCfg] at hx
    · obtain ⟨-, -, -, hz⟩ := hgr
      norm_num [defaultCfg] at hz

/-- C4 amended: the body is produced by the six claimed extrusion steps,
but with the flange added at step 2, before the cavity subtraction at step
3 (so the carve also hollows the flange ring, keeping the mating mouth
open), and with the flange profile carrying the same fillet as the body
profile rather than a reduced one.  With that order the composed solid
equals the source's `Body.__init__` build exactly. -/
theorem c4_body_sequence : bodySet defaultCfg = amendedOrderBody := by
  unfold bodySet amendedOrderBody
  have h1 : baseSolid defaultCfg = specOuterSolid := by
    unfold baseSolid specOuterSolid
    norm_num [defaultCfg]
  have h2 : flangeSolid defaultCfg = specFlangeSolid := by
    unfold flangeSolid specFlangeSolid
    norm_num [Cfg.flangeWidth, Cfg.flangeHeight, Cfg.flangeFillet, defaultCfg]
  have h3 : cavitySolid defaultCfg = specInnerSolid := by
    unfold cavitySolid specInnerSolid
    norm_num [Cfg.cavityWidth, Cfg.cavityHeight, Cfg.cavityDepth, defaultCfg]
  have h4 : standoffsSolid defaultCfg = specStandoffsSolid := by
    unfold standoffsSolid specStandoffsSolid
    norm_num [Cfg.standoffSpacing, Cfg.standoffWidth, Cfg.standoffDepth, defaultCfg]
  rw [h1, h2, h3, h4]
